import Mathlib

/-!
Verification of the Torrey Pines waitlist automation repository
(`automation.py` and `app.py`) against its natural-language specification.

The Python code is shallowly embedded: each function is translated into a
pure, executable Lean definition.  Browser interaction (Selenium) is
modelled by an explicit environment: every primitive driver action either
succeeds or raises (an `Except String` value supplied by the environment),
and page state during result verification is a stream of observations
`Nat → PageObs` (one observation per driver read).
-/

set_option maxHeartbeats 1000000

/-! ## String helpers (Python `in` and `str.lower()`) -/

/-- Python substring prefix test on character lists. -/
def charsPrefix : List Char → List Char → Bool
  | [], _ => true
  | _ :: _, [] => false
  | p :: ps, c :: cs => p == c && charsPrefix ps cs

/-- Python `sub in hay` on character lists. -/
def charsContains (hay pat : List Char) : Bool :=
  charsPrefix pat hay ||
    match hay with
    | [] => false
    | _ :: cs => charsContains cs pat

/-- Python `sub in s` (substring containment) on strings. -/
def strContains (s sub : String) : Bool :=
  charsContains s.data sub.data

/-- Python `s.lower()` (ASCII lowering, which is all the code relies on). -/
def strLower (s : String) : String :=
  ⟨s.data.map Char.toLower⟩

/-! ## Constants from `automation.py` -/

def WELCOME_URL : String := "https://waitwhile.com/locations/torreypinesgolf/welcome"

def FORM_URL : String := "https://waitwhile.com/locations/torreypinesgolf/details?registration=waitlist"

/-- Course name mapping (form value -> website display value), `COURSE_MAP`. -/
def COURSE_MAP : List (String × String) :=
  [("North", "North"), ("South", "South"),
   ("1st Available", "First Avail."), ("First Avail.", "First Avail.")]

/-- Python `COURSE_MAP.get(course, course)` as used in `run_waitlist_automation`. -/
def courseMapGet (course : String) : String :=
  (COURSE_MAP.lookup course).getD course

/-! ## `check_submission_result` (automation.py lines 148-184)

The driver is a stream `drv : Nat → PageObs`; read 0 is the initial
`driver.current_url` read that seeds `original_url`, reads `1 .. maxPolls`
are the poll-cycle observations (`timeout` 15 with 0.5-unit sleeps gives 30
polls), and read `maxPolls + 1` is the final `driver.current_url` read
after the window closes. -/

structure PageObs where
  url : String
  pageText : String
  deriving DecidableEq

/-- The five success indicators of the verifier (page text is lowered
exactly as `page_source.lower()` is). -/
def successIndicator (o : PageObs) : Bool :=
  let t := strLower o.pageText
  strContains t "you\x27re on the list" ||
  strContains t "you are on the list" ||
  strContains o.url "confirmation" ||
  strContains o.url "/status" ||
  (strContains t "position" && strContains t "line")

/-- The explicit error indicator (`"error" in page_text and "try again" in page_text`). -/
def errorIndicator (o : PageObs) : Bool :=
  let t := strLower o.pageText
  strContains t "error" && strContains t "try again"

def successMsg (o : PageObs) : String :=
  "Successfully joined waitlist! URL: " ++ o.url

def redirectMsg (o : PageObs) : String :=
  "Form submitted, redirected to: " ++ o.url

/-- One poll cycle of the verifier: success indicators, then
URL-changed-away-from-registration, then the error phrase, in that order;
`none` when no signal fires this cycle. -/
def classifyPoll (originalUrl : String) (o : PageObs) : Option (Bool × String) :=
  if successIndicator o then
    some (true, successMsg o)
  else if o.url ≠ originalUrl && !strContains o.url "registration=waitlist" then
    some (true, redirectMsg o)
  else if errorIndicator o then
    some (false, "Submission error detected on page")
  else
    none

/-- The polling loop of `check_submission_result`: polls observations
`idx, idx+1, ...` while fuel remains, returning the first fired signal. -/
def checkLoop (drv : Nat → PageObs) (originalUrl : String) : Nat → Nat → Option (Bool × String)
  | 0, _ => none
  | fuel + 1, idx =>
    match classifyPoll originalUrl (drv idx) with
    | some r => some r
    | none => checkLoop drv originalUrl fuel (idx + 1)

/-- `check_submission_result(driver, timeout)`: records `original_url` from
the driver at the moment the verifier starts (read 0), polls, and falls back
to the final-URL heuristic when no signal fired inside the window. -/
def check_submission_result (drv : Nat → PageObs) (maxPolls : Nat) : Bool × String :=
  let originalUrl := (drv 0).url
  match checkLoop drv originalUrl maxPolls 1 with
  | some r => r
  | none =>
    let finalUrl := (drv (maxPolls + 1)).url
    if strContains finalUrl "registration=waitlist" then
      (false, "Form did not submit - still on registration page")
    else
      (true, "Submission completed. Final URL: " ++ finalUrl)

/-- Modelled from the spec (for comparison only): the variant of
`check_submission_result` that the specification describes, whose reference
URL is the URL observed at submission time (the moment the submit control
is clicked), passed in as `clickUrl`. -/
def check_submission_result_fromClick (clickUrl : String) (drv : Nat → PageObs)
    (maxPolls : Nat) : Bool × String :=
  match checkLoop drv clickUrl maxPolls 1 with
  | some r => r
  | none =>
    let finalUrl := (drv (maxPolls + 1)).url
    if strContains finalUrl "registration=waitlist" then
      (false, "Form did not submit - still on registration page")
    else
      (true, "Submission completed. Final URL: " ++ finalUrl)

/-! ## `wait_for_join_button` (automation.py lines 125-145)

Each loop iteration performs one clickability check (the 3-unit
`WebDriverWait`); on failure it sleeps `refresh_interval` and refreshes,
then continues.  The availability of the button at attempt `i` (0-based) is
the environment function `clickable`.  `waitLoop` additionally counts the
checks performed and the refreshes issued. -/

/-- The `for attempt in range(max_attempts)` loop: returns
`(checks performed, refreshes issued, index of the attempt that succeeded
or none)`. -/
def waitLoop (clickable : Nat → Bool) : Nat → Nat → Nat × Nat × Option Nat
  | 0, _ => (0, 0, none)
  | fuel + 1, i =>
    if clickable i then
      (1, 0, some i)
    else
      let r := waitLoop clickable fuel (i + 1)
      (r.1 + 1, r.2.1 + 1, r.2.2)

/-- `wait_for_join_button(driver, max_attempts, refresh_interval)`:
the loop followed by the `raise Exception(...)` when it exhausts.  Returns
`(checks, refreshes, ok attemptIndex | error message)`. -/
def wait_for_join_button (clickable : Nat → Bool) (maxAttempts : Nat) :
    Nat × Nat × Except String Nat :=
  let r := waitLoop clickable maxAttempts 0
  match r.2.2 with
  | some i => (r.1, r.2.1, Except.ok i)
  | none =>
    (r.1, r.2.1,
      Except.error ("\x27Join waitlist\x27 button not available after " ++
        toString maxAttempts ++ " attempts"))

/-! ## `run_waitlist_automation` (automation.py lines 187-306)

The browser environment: every primitive Selenium step either succeeds or
raises, with the raised message chosen by the environment.  `drv` is the
observation stream consumed by `check_submission_result` once the submit
control has been clicked (its read 0 happens after the 2-unit post-click
sleep).  `urlAtClick` is the URL at the moment the submit control is
clicked (`pre_submit_url` in the source).  `quitFails` and
`screenshotFails` say whether the teardown `driver.quit()` and the debug
`save_screenshot` raise. -/

structure Env where
  createDriver : Except String Unit
  navGet : Except String Unit
  waitBodyTag : Except String Unit
  joinClickable : Nat → Bool
  clickJoin : Except String Unit
  fillFirstName : Except String Unit
  fillLastName : Except String Unit
  fillEmail : Except String Unit
  fillPhone : Except String Unit
  selectCourse : String → Except String Unit
  selectPlayers : String → Except String Unit
  findSubmit : Except String Unit
  submitDisabled : Bool
  urlAtClick : String
  clickSubmit : Except String Unit
  drv : Nat → PageObs
  quitFails : Bool
  screenshotFails : Bool

/-- The form data passed to `run_waitlist_automation` (all strings; `app.py`
passes `players` through `str`). -/
structure JobInput where
  first_name : String
  last_name : String
  email : String
  phone : String
  course : String
  players : String
  deriving DecidableEq

structure AutoResult where
  status : String
  message : String
  deriving DecidableEq

/-- Steps 1-4 of the orchestrator (browser creation, navigation, waiting
for and clicking the join button, filling the four text fields); any raise
aborts with that exception. -/
def preSteps (env : Env) : Except String Unit := do
  env.createDriver
  env.navGet
  env.waitBodyTag
  let _join ← (wait_for_join_button env.joinClickable 120).2.2
  env.clickJoin
  env.fillFirstName
  env.fillLastName
  env.fillEmail
  env.fillPhone

/-- Instrumentation of the orchestrator run: whether the submit control was
clicked, and the option label passed to the course dropdown (if reached). -/
structure Trace where
  submitClicked : Bool
  courseLabel : Option String
  deriving DecidableEq

/-- The body of the orchestrator `try` block (steps 1-6): either the
returned `AutoResult` dict or the raised exception, together with the
instrumentation trace. -/
def runBodyTraced (env : Env) (job : JobInput) : Except String AutoResult × Trace :=
  match preSteps env with
  | Except.error e => (Except.error e, ⟨false, none⟩)
  | Except.ok _ =>
    match env.selectCourse (courseMapGet job.course) with
    | Except.error e => (Except.error e, ⟨false, some (courseMapGet job.course)⟩)
    | Except.ok _ =>
      match env.selectPlayers job.players with
      | Except.error e => (Except.error e, ⟨false, some (courseMapGet job.course)⟩)
      | Except.ok _ =>
        match env.findSubmit with
        | Except.error e => (Except.error e, ⟨false, some (courseMapGet job.course)⟩)
        | Except.ok _ =>
          if env.submitDisabled then
            (Except.ok ⟨"error", "Submit button is disabled - waitlist may be closed"⟩,
             ⟨false, some (courseMapGet job.course)⟩)
          else
            match env.clickSubmit with
            | Except.error e => (Except.error e, ⟨true, some (courseMapGet job.course)⟩)
            | Except.ok _ =>
              if (check_submission_result env.drv 30).1 then
                (Except.ok ⟨"success", (check_submission_result env.drv 30).2⟩,
                 ⟨true, some (courseMapGet job.course)⟩)
              else
                (Except.ok ⟨"error", (check_submission_result env.drv 30).2⟩,
                 ⟨true, some (courseMapGet job.course)⟩)

/-- Observable outcome of one orchestrator run: the returned dict plus
whether a browser session was created, whether the `finally` block
attempted `driver.quit()`, and the instrumentation trace. -/
structure RunOut where
  result : AutoResult
  driverCreated : Bool
  quitAttempted : Bool
  submitClicked : Bool
  courseLabel : Option String
  deriving DecidableEq

/-- `run_waitlist_automation(...)`: the `try` body, the top-level
`except Exception` handler (which wraps any raise into an error dict; the
debug screenshot attempt is swallowed), and the `finally` block (which
attempts `driver.quit()` exactly when the driver was assigned, swallowing
any teardown failure). -/
def run_waitlist_automation (env : Env) (job : JobInput) : RunOut :=
  let driverCreated :=
    match env.createDriver with
    | Except.ok _ => true
    | Except.error _ => false
  let bt := runBodyTraced env job
  let result :=
    match bt.1 with
    | Except.ok r => r
    | Except.error e => ⟨"error", "Automation error: " ++ e⟩
  { result := result
    driverCreated := driverCreated
    quitAttempted := driverCreated
    submitClicked := bt.2.submitClicked
    courseLabel := bt.2.courseLabel }

/-! ## `app.py`: job records and the lifecycle manager -/

/-- A row of the `jobs` table (the `id` key is the `Option JobRec` lookup
result below; `scheduled_time`, `result_message`, `completed_at` are
nullable). -/
structure JobRec where
  first_name : String
  last_name : String
  email : String
  phone : String
  course : String
  players : Int
  scheduled_time : Option String
  status : String
  result_message : Option String
  completed_at : Option String
  deriving DecidableEq

/-- A persisted update issued by `run_job` against the job's row. -/
inductive DbWrite where
  | setStatus (status : String)
  | setFinal (status : String) (message : String) (completedAt : String)
  deriving DecidableEq

/-- Converts a job row to the arguments `run_job` passes to
`run_waitlist_automation` (`players` goes through `str`). -/
def jobInputOf (j : JobRec) : JobInput :=
  ⟨j.first_name, j.last_name, j.email, j.phone, j.course, toString j.players⟩

/-- `run_job(job_id)` (app.py lines 64-107): the sequence of row updates it
persists.  `job` is the row fetched for `job_id` (`none` when missing);
`orch` is the outcome of the `run_waitlist_automation` call inside the
`try` (`Except.error e` models the call raising, handled by the `except`
branch); `nowPacific` is `datetime.now(PACIFIC_TZ).isoformat()` at the
moment of the terminal update. -/
def run_job (job : Option JobRec) (orch : Except String AutoResult)
    (nowPacific : String) : List DbWrite :=
  match job with
  | none => []
  | some _ =>
    let sm :=
      match orch with
      | Except.ok result =>
        (if result.status = "success" then "completed" else "failed", result.message)
      | Except.error e => ("failed", "Error: " ++ e)
    [DbWrite.setStatus "running", DbWrite.setFinal sm.1 sm.2 nowPacific]

/-- The optional fields of a PUT `/api/jobs/<id>` request body
(`data.get(key, old)` falls back to the stored value when the key is
absent). -/
structure UpdateData where
  firstName : Option String
  lastName : Option String
  email : Option String
  phone : Option String
  course : Option String
  players : Option Int
  scheduledTime : Option (Option String)
  deriving DecidableEq

/-- `update_job(job_id)` (app.py lines 206-263): returns
`((http status, body message), resulting row)`. -/
def update_job (job : Option JobRec) (data : UpdateData) :
    (Nat × String) × Option JobRec :=
  match job with
  | none => ((404, "Job not found"), none)
  | some j =>
    if j.status ≠ "pending" then
      ((400, "Can only edit pending jobs"), some j)
    else
      let j' : JobRec :=
        { j with
          first_name := data.firstName.getD j.first_name
          last_name := data.lastName.getD j.last_name
          email := data.email.getD j.email
          phone := data.phone.getD j.phone
          course := data.course.getD j.course
          players := data.players.getD j.players
          scheduled_time := data.scheduledTime.getD j.scheduled_time }
      ((200, "updated"), some j')

/-- `delete_job(job_id)` (app.py lines 265-285): returns
`((http status, body message), resulting row)`.  Note the source performs
the `DELETE` without inspecting `job.status`. -/
def delete_job (job : Option JobRec) : (Nat × String) × Option JobRec :=
  match job with
  | none => ((404, "Job not found"), none)
  | some _ => ((200, "deleted"), none)

/-- `run_job_now(job_id)` (app.py lines 287-313): returns
`((http status, body message), resulting row, whether a background
`run_job` thread was started)`. -/
def run_job_now (job : Option JobRec) : (Nat × String) × Option JobRec × Bool :=
  match job with
  | none => ((404, "Job not found"), none, false)
  | some j =>
    if j.status ≠ "pending" then
      ((400, "Can only run pending jobs"), some j, false)
    else
      ((200, "started"), some j, true)

/-! ## Concrete fixtures (used to evaluate the development on closed inputs) -/

def jobTest : JobInput := ⟨"Test", "User", "test@example.com", "555-123-4567", "North", "2"⟩

def jobW : JobInput := ⟨"Test", "User", "test@example.com", "555-123-4567", "Torrey West", "2"⟩

/-- A driver that stays on the registration form showing an inert page. -/
def drvC5 : Nat → PageObs := fun _ => ⟨FORM_URL, "loading"⟩

/-- An environment in which every browser step succeeds, the join control
is clickable at once, and the submit control reports `disabled`. -/
def envOK : Env :=
  { createDriver := Except.ok (), navGet := Except.ok (), waitBodyTag := Except.ok ()
    joinClickable := fun _ => true, clickJoin := Except.ok ()
    fillFirstName := Except.ok (), fillLastName := Except.ok ()
    fillEmail := Except.ok (), fillPhone := Except.ok ()
    selectCourse := fun _ => Except.ok (), selectPlayers := fun _ => Except.ok ()
    findSubmit := Except.ok (), submitDisabled := true
    urlAtClick := FORM_URL, clickSubmit := Except.ok ()
    drv := drvC5, quitFails := false, screenshotFails := false }

/-- A page matching both a success phrase and the error phrase. -/
def obsC6 : PageObs :=
  ⟨FORM_URL, "you\x27re on the list ... error ... try again"⟩

/-- A driver already on the welcome page (redirect happened during the
post-click pause) with no markers rendered. -/
def drvC9 : Nat → PageObs := fun _ => ⟨WELCOME_URL, "waiting room"⟩

/-- Like `envOK` but the submit control is enabled and the page redirects
away from the form before the verifier starts. -/
def envC9 : Env := { envOK with submitDisabled := false, drv := drvC9 }

/-- A driver whose verifier-start read is the form URL and whose first poll
sees the welcome URL. -/
def drvRedir : Nat → PageObs :=
  fun i => if i = 0 then ⟨FORM_URL, "submitting"⟩ else ⟨WELCOME_URL, "waiting room"⟩

def jobCompleted : JobRec :=
  ⟨"Test", "User", "test@example.com", "555-123-4567", "North", 2, none,
   "completed", some "Successfully joined waitlist!", some "2026-01-01T06:00:00"⟩

def jobRunning : JobRec :=
  { jobCompleted with status := "running", result_message := none, completed_at := none }

def jobPending : JobRec :=
  { jobCompleted with status := "pending", result_message := none, completed_at := none }

/-- A PUT body carrying no fields. -/
def dEmpty : UpdateData := ⟨none, none, none, none, none, none, none⟩


/-! ## Helper lemmas -/

theorem append_ne_empty (s t : String) (h : s ≠ "") : s ++ t ≠ "" := by
  intro he
  apply h
  have hd : s.data ++ t.data = [] := by
    have h2 := congrArg String.data he
    simpa using h2
  have hs : s.data = [] := (List.append_eq_nil.mp hd).1
  cases s with
  | mk d => simp_all

theorem classifyPoll_msg_ne (u : String) (o : PageObs) (r : Bool × String)
    (h : classifyPoll u o = some r) : r.2 ≠ "" := by
  unfold classifyPoll at h
  split at h
  · cases h
    exact append_ne_empty _ _ (by decide)
  · split at h
    · cases h
      exact append_ne_empty _ _ (by decide)
    · split at h
      · cases h
        decide
      · cases h

theorem checkLoop_msg_ne (drv : Nat → PageObs) (u : String) :
    ∀ fuel i r, checkLoop drv u fuel i = some r → r.2 ≠ "" := by
  intro fuel
  induction fuel with
  | zero => intro i r h; simp [checkLoop] at h
  | succ n ih =>
    intro i r h
    unfold checkLoop at h
    cases hc : classifyPoll u (drv i) with
    | some r2 =>
      rw [hc] at h
      cases h
      exact classifyPoll_msg_ne u (drv i) _ hc
    | none =>
      rw [hc] at h
      exact ih (i + 1) r h

theorem check_msg_ne (drv : Nat → PageObs) (n : Nat) :
    (check_submission_result drv n).2 ≠ "" := by
  unfold check_submission_result
  cases hl : checkLoop drv ((drv 0).url) n 1 with
  | some r =>
    simpa [hl] using checkLoop_msg_ne drv ((drv 0).url) n 1 r hl
  | none =>
    simp only [hl]
    split
    · decide
    · exact append_ne_empty _ _ (by decide)

theorem runBody_ok_status (env : Env) (job : JobInput) (r : AutoResult)
    (h : (runBodyTraced env job).1 = Except.ok r) :
    (r.status = "success" ∨ r.status = "error") ∧ r.message ≠ "" := by
  unfold runBodyTraced at h
  cases hp : preSteps env with
  | error e => rw [hp] at h; simp at h
  | ok u =>
    rw [hp] at h
    cases hc : env.selectCourse (courseMapGet job.course) with
    | error e => rw [hc] at h; simp at h
    | ok u2 =>
      rw [hc] at h
      cases hpl : env.selectPlayers job.players with
      | error e => rw [hpl] at h; simp at h
      | ok u3 =>
        rw [hpl] at h
        cases hf : env.findSubmit with
        | error e => rw [hf] at h; simp at h
        | ok u4 =>
          rw [hf] at h
          by_cases hd : env.submitDisabled = true
          · rw [if_pos hd] at h
            simp at h
            cases h.symm
            exact ⟨Or.inr rfl, by decide⟩
          · rw [if_neg hd] at h
            cases hcl : env.clickSubmit with
            | error e => rw [hcl] at h; simp at h
            | ok u5 =>
              rw [hcl] at h
              by_cases hr : (check_submission_result env.drv 30).1 = true
              · rw [if_pos hr] at h
                simp at h
                cases h.symm
                exact ⟨Or.inl rfl, check_msg_ne env.drv 30⟩
              · rw [if_neg hr] at h
                simp at h
                cases h.symm
                exact ⟨Or.inr rfl, check_msg_ne env.drv 30⟩

theorem run_result_wellformed (env : Env) (job : JobInput) :
    ((run_waitlist_automation env job).result.status = "success" ∨
      (run_waitlist_automation env job).result.status = "error") ∧
    (run_waitlist_automation env job).result.message ≠ "" := by
  unfold run_waitlist_automation
  cases hb : (runBodyTraced env job).1 with
  | ok r =>
    simp only [hb]
    exact runBody_ok_status env job r hb
  | error e =>
    simp only [hb]
    exact ⟨Or.inr (by trivial), append_ne_empty _ _ (by decide)⟩

theorem waitLoop_none (c : Nat → Bool) :
    ∀ fuel start, (∀ i, start ≤ i → i < start + fuel → c i = false) →
      waitLoop c fuel start = (fuel, fuel, none) := by
  intro fuel
  induction fuel with
  | zero => intro start h; rfl
  | succ n ih =>
    intro start h
    unfold waitLoop
    rw [h start (Nat.le_refl _) (by omega)]
    simp only [Bool.false_eq_true, if_false]
    rw [ih (start + 1) (fun i h1 h2 => h i (by omega) (by omega))]

theorem waitLoop_found (c : Nat → Bool) :
    ∀ fuel start k, start ≤ k → k < start + fuel → c k = true →
      (∀ i, start ≤ i → i < k → c i = false) →
      waitLoop c fuel start = (k - start + 1, k - start, some k) := by
  intro fuel
  induction fuel with
  | zero => intro start k h1 h2 h3 h4; omega
  | succ n ih =>
    intro start k h1 h2 h3 h4
    unfold waitLoop
    by_cases hs : start = k
    · subst hs
      rw [h3]
      simp
    · rw [h4 start (Nat.le_refl _) (by omega)]
      simp only [Bool.false_eq_true, if_false]
      rw [ih (start + 1) k (by omega) (by omega) h3
        (fun i hi1 hi2 => h4 i (by omega) hi2)]
      have e1 : k - (start + 1) + 1 = k - start := by omega
      have e2 : k - (start + 1) + 1 + 1 = k - start + 1 := by omega
      simp only [e1, e2]

theorem courseLabel_after_fill (env : Env) (job : JobInput)
    (hp : preSteps env = Except.ok ()) :
    (runBodyTraced env job).2.courseLabel = some (courseMapGet job.course) := by
  unfold runBodyTraced
  simp only [hp]
  repeat' (first | rfl | split)

/-! ## Claim theorems -/

/-- Claim C1: every run of the orchestrator returns a dict whose status is
success or error with a non-empty message; no exception propagates. -/
theorem C1_orchestrator_total (env : Env) (job : JobInput) :
    ((run_waitlist_automation env job).result.status = "success" ∨
      (run_waitlist_automation env job).result.status = "error") ∧
    (run_waitlist_automation env job).result.message ≠ "" :=
  run_result_wellformed env job

/-- Claim C2: disabled submit control short-circuits. -/
theorem C2_disabled_short_circuit (env : Env) (job : JobInput) (j : JobRec) (now : String)
    (h1 : preSteps env = Except.ok ())
    (h2 : env.selectCourse (courseMapGet job.course) = Except.ok ())
    (h3 : env.selectPlayers job.players = Except.ok ())
    (h4 : env.findSubmit = Except.ok ())
    (h5 : env.submitDisabled = true) :
    (run_waitlist_automation env job).result =
      ⟨"error", "Submit button is disabled - waitlist may be closed"⟩ ∧
    (run_waitlist_automation env job).submitClicked = false ∧
    run_job (some j) (Except.ok (run_waitlist_automation env job).result) now =
      [DbWrite.setStatus "running",
       DbWrite.setFinal "failed" "Submit button is disabled - waitlist may be closed" now] := by
  have hb : runBodyTraced env job =
      (Except.ok ⟨"error", "Submit button is disabled - waitlist may be closed"⟩,
       ⟨false, some (courseMapGet job.course)⟩) := by
    unfold runBodyTraced
    rw [h1, h2, h3, h4, if_pos h5]
  have hr : (run_waitlist_automation env job).result =
      ⟨"error", "Submit button is disabled - waitlist may be closed"⟩ := by
    unfold run_waitlist_automation
    rw [hb]
  refine ⟨hr, ?_, ?_⟩
  · unfold run_waitlist_automation
    rw [hb]
  · rw [hr]
    simp [run_job]

theorem C2_witness :
    (run_waitlist_automation envOK jobTest).result =
      ⟨"error", "Submit button is disabled - waitlist may be closed"⟩ ∧
    (run_waitlist_automation envOK jobTest).submitClicked = false ∧
    run_job (some jobPending)
      (Except.ok (run_waitlist_automation envOK jobTest).result) "2026-10-12T07:00:00" =
      [DbWrite.setStatus "running",
       DbWrite.setFinal "failed" "Submit button is disabled - waitlist may be closed"
         "2026-10-12T07:00:00"] :=
  C2_disabled_short_circuit envOK jobTest jobPending "2026-10-12T07:00:00" rfl rfl rfl rfl rfl

/-- Claim C3 counterexample: a completed job is deleted without rejection. -/
theorem C3_counterexample :
    delete_job (some jobCompleted) = ((200, "deleted"), none) ∧
    (delete_job (some jobCompleted)).2 ≠ some jobCompleted := by
  decide

/-- Claim C3 amended. -/
theorem C3_amended_nonpending (j : JobRec) (d : UpdateData) (h : j.status ≠ "pending") :
    update_job (some j) d = ((400, "Can only edit pending jobs"), some j) ∧
    run_job_now (some j) = ((400, "Can only run pending jobs"), some j, false) ∧
    delete_job (some j) = ((200, "deleted"), none) := by
  refine ⟨?_, ?_, rfl⟩
  · simp only [update_job]
    rw [if_pos h]
  · simp only [run_job_now]
    rw [if_pos h]

theorem C3_witness :
    update_job (some jobRunning) dEmpty = ((400, "Can only edit pending jobs"), some jobRunning) ∧
    run_job_now (some jobRunning) = ((400, "Can only run pending jobs"), some jobRunning, false) ∧
    delete_job (some jobRunning) = ((200, "deleted"), none) :=
  C3_amended_nonpending jobRunning dEmpty (by decide)

/-- Claim C4: the availability poller performs exactly maxAttempts checks
then raises when the control never becomes clickable; when the control
first becomes clickable at 0-based attempt index k (the (k+1)-st attempt),
it performs exactly k+1 checks, k refreshes, and returns the control. -/
theorem C4_join_button_polling (c : Nat → Bool) (m k : Nat) :
    ((∀ i, i < m → c i = false) →
      wait_for_join_button c m =
        (m, m, Except.error ("\x27Join waitlist\x27 button not available after " ++
          toString m ++ " attempts"))) ∧
    (k < m → c k = true → (∀ i, i < k → c i = false) →
      wait_for_join_button c m = (k + 1, k, Except.ok k)) := by
  constructor
  · intro h
    unfold wait_for_join_button
    rw [waitLoop_none c m 0 (fun i h1 h2 => h i (by omega))]
  · intro h1 h2 h3
    unfold wait_for_join_button
    rw [waitLoop_found c m 0 k (Nat.zero_le _) (by omega) h2
      (fun i hi1 hi2 => h3 i hi2)]
    rfl

theorem C4_witness :
    wait_for_join_button (fun _ => false) 4 =
      (4, 4, Except.error ("\x27Join waitlist\x27 button not available after 4 attempts")) ∧
    wait_for_join_button (fun i => i == 2) 5 = (3, 2, Except.ok 2) :=
  ⟨(C4_join_button_polling (fun _ => false) 4 0).1 (fun i _ => rfl),
   (C4_join_button_polling (fun i => i == 2) 5 2).2 (by decide) (by decide)
     (by decide)⟩

/-- Claim C5: when no signal fires in the window. -/
theorem C5_window_exhausted (drv : Nat → PageObs) (n : Nat)
    (h : checkLoop drv ((drv 0).url) n 1 = none) :
    (strContains ((drv (n + 1)).url) "registration=waitlist" = true →
      (check_submission_result drv n).1 = false ∧
      strContains (check_submission_result drv n).2 "did not submit" = true) ∧
    (strContains ((drv (n + 1)).url) "registration=waitlist" = false →
      (check_submission_result drv n).1 = true) := by
  unfold check_submission_result
  simp only [h]
  refine ⟨fun hm => ?_, fun hm => ?_⟩
  · simp only [hm, if_true]
    exact ⟨by trivial, by decide⟩
  · simp [hm]

/-- Claim C5 witness. -/
theorem C5_witness :
    (check_submission_result drvC5 30).1 = false ∧
    strContains (check_submission_result drvC5 30).2 "did not submit" = true :=
  (C5_window_exhausted drvC5 30 (by decide)).1 (by decide)

/-- Claim C6: priority order of the verifier's signals. -/
theorem C6_signal_priority (u : String) (o : PageObs) (drv : Nat → PageObs) (n : Nat) :
    (successIndicator o = true → classifyPoll u o = some (true, successMsg o)) ∧
    (successIndicator o = false → o.url ≠ u →
      strContains o.url "registration=waitlist" = false →
      classifyPoll u o = some (true, redirectMsg o)) ∧
    (successIndicator o = false →
      (o.url = u ∨ strContains o.url "registration=waitlist" = true) →
      errorIndicator o = true →
      classifyPoll u o = some (false, "Submission error detected on page")) ∧
    (successIndicator (drv 1) = true →
      check_submission_result drv (n + 1) = (true, successMsg (drv 1))) := by
  refine ⟨fun hs => ?_, fun hs hu hm => ?_, fun hs hc he => ?_, fun hs => ?_⟩
  · unfold classifyPoll
    rw [hs]
    rfl
  · unfold classifyPoll
    rw [hs]
    simp [hu, hm]
  · unfold classifyPoll
    rw [hs]
    rcases hc with hc | hc
    · simp [hc, he]
    · simp [hc, he]
  · unfold check_submission_result checkLoop
    have hcl : classifyPoll ((drv 0).url) (drv 1) = some (true, successMsg (drv 1)) := by
      unfold classifyPoll
      rw [hs]
      rfl
    simp only [hcl]

/-- Claim C6 witness. -/
theorem C6_witness :
    classifyPoll FORM_URL obsC6 = some (true, successMsg obsC6) ∧
    errorIndicator obsC6 = true ∧
    check_submission_result (fun _ => obsC6) 1 = (true, successMsg obsC6) :=
  ⟨(C6_signal_priority FORM_URL obsC6 (fun _ => obsC6) 0).1 (by decide), by decide,
   (C6_signal_priority FORM_URL obsC6 (fun _ => obsC6) 0).2.2.2 (by decide)⟩

/-- Claim C7: teardown on every exit path. -/
theorem C7_teardown (env : Env) (job : JobInput) (b b2 : Bool)
    (h : env.createDriver = Except.ok ()) :
    (run_waitlist_automation env job).quitAttempted =
      (run_waitlist_automation env job).driverCreated ∧
    (run_waitlist_automation env job).driverCreated = true ∧
    run_waitlist_automation { env with quitFails := b, screenshotFails := b2 } job =
      run_waitlist_automation env job := by
  refine ⟨rfl, ?_, rfl⟩
  unfold run_waitlist_automation
  rw [h]

/-- Claim C7 witness. -/
theorem C7_witness :
    (run_waitlist_automation envOK jobTest).quitAttempted =
      (run_waitlist_automation envOK jobTest).driverCreated ∧
    (run_waitlist_automation envOK jobTest).driverCreated = true ∧
    run_waitlist_automation { envOK with quitFails := true, screenshotFails := true } jobTest =
      run_waitlist_automation envOK jobTest :=
  C7_teardown envOK jobTest true true rfl

/-- Claim C8: the lifecycle manager's persisted updates. -/
theorem C8_lifecycle (j : JobRec) (env : Env) (now e : String) :
    run_job (some j) (Except.ok (run_waitlist_automation env (jobInputOf j)).result) now =
      [DbWrite.setStatus "running",
       DbWrite.setFinal
         (if (run_waitlist_automation env (jobInputOf j)).result.status = "success"
           then "completed" else "failed")
         (run_waitlist_automation env (jobInputOf j)).result.message now] ∧
    (run_waitlist_automation env (jobInputOf j)).result.message ≠ "" ∧
    ((if (run_waitlist_automation env (jobInputOf j)).result.status = "success"
       then "completed" else "failed") = "completed" ↔
      (run_waitlist_automation env (jobInputOf j)).result.status = "success") ∧
    ((if (run_waitlist_automation env (jobInputOf j)).result.status = "success"
       then "completed" else "failed") = "completed" ∨
     (if (run_waitlist_automation env (jobInputOf j)).result.status = "success"
       then "completed" else "failed") = "failed") ∧
    run_job (some j) (Except.error e) now =
      [DbWrite.setStatus "running", DbWrite.setFinal "failed" ("Error: " ++ e) now] ∧
    ("Error: " ++ e) ≠ "" := by
  refine ⟨rfl, ?_, ?_, ?_, rfl, append_ne_empty _ _ (by decide)⟩
  · exact (run_result_wellformed env (jobInputOf j)).2
  · by_cases h : (run_waitlist_automation env (jobInputOf j)).result.status = "success"
    · simp [h]
    · simp [h]
  · by_cases h : (run_waitlist_automation env (jobInputOf j)).result.status = "success"
    · simp [h]
    · simp [h]

/-- Claim C9 counterexample: at click time the browser is still at the
registration form URL, but it redirects to the welcome URL during the
2-unit pause before verification begins; the code (reference recorded at
verifier start) returns the after-window inferred success, while the
claimed behavior (reference recorded at click time) reports the redirect
on the first cycle. -/
theorem C9_counterexample :
    envC9.urlAtClick = FORM_URL ∧
    (envC9.drv 0).url ≠ envC9.urlAtClick ∧
    (run_waitlist_automation envC9 jobTest).result =
      ⟨"success", "Submission completed. Final URL: " ++ WELCOME_URL⟩ ∧
    check_submission_result_fromClick envC9.urlAtClick envC9.drv 30 =
      (true, "Form submitted, redirected to: " ++ WELCOME_URL) ∧
    check_submission_result envC9.drv 30 ≠
      check_submission_result_fromClick envC9.urlAtClick envC9.drv 30 :=
  ⟨rfl, by decide, by decide, by decide, by decide⟩

/-- Claim C9 amended. -/
theorem C9_amended_reference (env : Env) (job : JobInput) (u ref : String)
    (o : PageObs) (drv : Nat → PageObs) (n : Nat) :
    (run_waitlist_automation { env with urlAtClick := u } job =
      run_waitlist_automation env job) ∧
    (successIndicator o = false →
      (classifyPoll ref o = some (true, redirectMsg o) ↔
        (o.url ≠ ref ∧ strContains o.url "registration=waitlist" = false))) ∧
    (successIndicator (drv 1) = false → errorIndicator (drv 1) = false →
      (drv 1).url ≠ (drv 0).url →
      strContains ((drv 1).url) "registration=waitlist" = false →
      check_submission_result drv (n + 1) = (true, redirectMsg (drv 1))) := by
  refine ⟨rfl, fun hs => ?_, fun hs he hu hm => ?_⟩
  · constructor
    · intro hcl
      unfold classifyPoll at hcl
      rw [if_neg (by simp [hs])] at hcl
      by_cases hb : o.url ≠ ref ∧ strContains o.url "registration=waitlist" = false
      · exact hb
      · exfalso
        rw [if_neg (by simp; intro hne; simp [hne] at hb; exact hb)] at hcl
        split at hcl
        · simp at hcl
        · simp at hcl
    · rintro ⟨hu, hm⟩
      unfold classifyPoll
      rw [hs]
      simp [hu, hm]
  · unfold check_submission_result checkLoop
    have hcl : classifyPoll ((drv 0).url) (drv 1) = some (true, redirectMsg (drv 1)) := by
      unfold classifyPoll
      rw [hs]
      simp [hu, hm]
    simp only [hcl]

/-- Claim C9 amended witness. -/
theorem C9_amended_witness :
    check_submission_result drvRedir 30 =
      (true, redirectMsg ⟨WELCOME_URL, "waiting room"⟩) :=
  (C9_amended_reference envOK jobTest "x" "y" ⟨"a", "b"⟩ drvRedir 29).2.2
    (by decide) (by decide) (by decide) (by decide)

/-- Claim C10: the course value is translated through COURSE_MAP with
verbatim pass-through for unmapped values, and that label is what the
orchestrator hands to the dropdown selection. -/
theorem C10_course_mapping (c : String) (env : Env) (job : JobInput)
    (h : ∀ p ∈ COURSE_MAP, p.1 ≠ c) (hp : preSteps env = Except.ok ()) :
    courseMapGet "North" = "North" ∧ courseMapGet "South" = "South" ∧
    courseMapGet "1st Available" = "First Avail." ∧
    courseMapGet "First Avail." = "First Avail." ∧
    courseMapGet c = c ∧
    (run_waitlist_automation env job).courseLabel = some (courseMapGet job.course) := by
  refine ⟨by decide, by decide, by decide, by decide, ?_, ?_⟩
  · have h1 : ("North" : String) ≠ c := h ("North", "North") (by simp [COURSE_MAP])
    have h2 : ("South" : String) ≠ c := h ("South", "South") (by simp [COURSE_MAP])
    have h3 : ("1st Available" : String) ≠ c :=
      h ("1st Available", "First Avail.") (by simp [COURSE_MAP])
    have h4 : ("First Avail." : String) ≠ c :=
      h ("First Avail.", "First Avail.") (by simp [COURSE_MAP])
    have e1 : (c == "North") = false := beq_eq_false_iff_ne.mpr (Ne.symm h1)
    have e2 : (c == "South") = false := beq_eq_false_iff_ne.mpr (Ne.symm h2)
    have e3 : (c == "1st Available") = false := beq_eq_false_iff_ne.mpr (Ne.symm h3)
    have e4 : (c == "First Avail.") = false := beq_eq_false_iff_ne.mpr (Ne.symm h4)
    simp [courseMapGet, COURSE_MAP, List.lookup, e1, e2, e3, e4]
  · have hc := courseLabel_after_fill env job hp
    simp only [run_waitlist_automation]
    exact hc

/-- Claim C10 witness. -/
theorem C10_witness :
    courseMapGet "Torrey West" = "Torrey West" ∧
    (run_waitlist_automation envOK jobW).courseLabel = some (courseMapGet "Torrey West") :=
  ⟨(C10_course_mapping "Torrey West" envOK jobW (by decide) rfl).2.2.2.2.1,
   (C10_course_mapping "Torrey West" envOK jobW (by decide) rfl).2.2.2.2.2⟩
